import Mathlib

/-!
Shallow embedding of the photo_shake_v3 repository core
(src/repository/ratings.py, src/repository/transform_foto.py,
src/repository/tags.py, src/repository/fotos.py, src/database/models.py)
and proofs about the rating engine, the transformation compiler, the tag
resolver, photo creation and QR rendering.

Relational rows are embedded as Lean structures, a database session as
lists of rows, SQLAlchemy `query(...).filter(...).first()` as `List.find?`,
and `db.add` as appending a row whose autoincrement primary key is one more
than the maximum key in the table.  External collaborators (cloudinary URL
building, QR encoding) are passed in as function parameters.
-/

namespace PhotoShake

/-- Embedding of `UserRoleEnum` from src/database/models.py. -/
inductive UserRoleEnum where
  | user
  | moder
  | admin
deriving DecidableEq, Repr

/-- The `users` row fields the repository functions read. -/
structure User where
  id : Nat
  role : UserRoleEnum
deriving DecidableEq, Repr

/-- The `fotos` row fields the repository functions read or write. -/
structure Foto where
  id : Nat
  image_url : String
  transform_url : String
  title : String
  descr : String
  done : Bool
  user_id : Nat
  public_id : String
deriving DecidableEq, Repr

/-- The `ratings` row fields the repository functions read or write. -/
structure Rating where
  id : Nat
  rate : Int
  foto_id : Nat
  user_id : Nat
deriving DecidableEq, Repr

/-- The `tags` row fields the repository functions read or write. -/
structure Tag where
  id : Nat
  title : String
  user_id : Nat
deriving DecidableEq, Repr

/-- A database session: the three tables the verified repository
functions touch. -/
structure DB where
  fotos : List Foto
  ratings : List Rating
  tags : List Tag
deriving DecidableEq, Repr

/-- Modelled from the spec: the fixed message constants of
src/conf/messages.py (the module is not under src/); each error is
"surfaced ... with a fixed message", so the messages are distinct tokens. -/
inductive Message where
  | OWN_FOTO
  | VOTE_TWICE
  | NOT_FOUND
deriving DecidableEq, Repr

/-- Embedding of `fastapi.HTTPException` as raised by the repository and route layers:
a status code and a fixed detail message. -/
structure HTTPException where
  status_code : Nat
  detail : Message
deriving DecidableEq, Repr

/-- Autoincrement primary key for the `ratings` table: one more than the
largest id present. -/
def fresh_rating_id (db : DB) : Nat :=
  (db.ratings.map Rating.id).foldr max 0 + 1

/-- Embedding of `create_rate` from src/repository/ratings.py: queries for a photo with
this id owned by the rater, an existing vote by the rater on this photo,
and the photo itself, then raises 423 OWN_FOTO, 423 VOTE_TWICE, creates the
rating, or falls through returning nothing — in that order. -/
def create_rate (foto_id : Nat) (rate : Int) (db : DB) (user : User) :
    Except HTTPException (Option Rating × DB) :=
  let is_self_foto := db.fotos.find? (fun f => f.id == foto_id && f.user_id == user.id)
  let already_voted := db.ratings.find? (fun r => r.foto_id == foto_id && r.user_id == user.id)
  let foto_exists := db.fotos.find? (fun f => f.id == foto_id)
  if is_self_foto.isSome then
    .error ⟨423, .OWN_FOTO⟩
  else if already_voted.isSome then
    .error ⟨423, .VOTE_TWICE⟩
  else if foto_exists.isSome then
    let new_rate : Rating := ⟨fresh_rating_id db, rate, foto_id, user.id⟩
    .ok (some new_rate, { db with ratings := db.ratings ++ [new_rate] })
  else
    .ok (none, db)

/-- Modelled from the spec: the ratings route (src/routes/ratings.py is not
under src/) surfaces a `None` result of `create_rate` as a 404 with the
fixed NOT_FOUND message, and passes errors and created ratings through
(the route tests expect 404 when rating a missing photo). -/
def create_rate_route (foto_id : Nat) (rate : Int) (db : DB) (user : User) :
    Except HTTPException (Rating × DB) :=
  match create_rate foto_id rate db user with
  | .error e => .error e
  | .ok (none, _) => .error ⟨404, .NOT_FOUND⟩
  | .ok (some r, db1) => .ok (r, db1)

/-- A Python-level exception escaping a repository function (as opposed to
an intentionally raised `HTTPException`). -/
inductive PyError where
  | AttributeError
deriving DecidableEq, Repr

/-- Embedding of `edit_rate` from src/repository/ratings.py.  The permission condition
`user.role in [admin, moder] or rate.user_id == user.id` short-circuits:
when the role is not privileged it dereferences `rate.user_id`, which
raises `AttributeError` when the query found no rating (`rate is None`);
the `if rate:` guard is only reached afterwards. -/
def edit_rate (rate_id : Nat) (new_rate : Int) (db : DB) (user : User) :
    Except PyError (Option Rating × DB) :=
  let rate := db.ratings.find? (fun r => r.id == rate_id)
  let committed : DB :=
    { db with ratings := db.ratings.map (fun x => if x.id == rate_id then { x with rate := new_rate } else x) }
  if user.role == .admin || user.role == .moder then
    match rate with
    | some r => .ok (some { r with rate := new_rate }, committed)
    | none => .ok (none, db)
  else
    match rate with
    | none => .error .AttributeError
    | some r =>
        if r.user_id == user.id then
          .ok (some { r with rate := new_rate }, committed)
        else
          .ok (some r, db)

/-- Modelled from the spec: the `circle` group of `TransformBodyModel`
(src/tramsform_schemas.py is not under src/); an enable flag plus optional
integer parameters, per spec §4.3 group 1 and the fields read in
src/repository/transform_foto.py. -/
structure CircleModel where
  use_filter : Bool
  height : Option Nat
  width : Option Nat
deriving DecidableEq, Repr

/-- Modelled from the spec: the `effect` group of `TransformBodyModel`;
an enable flag plus four effect sub-flags, per spec §4.3 group 2. -/
structure EffectModel where
  use_filter : Bool
  art_audrey : Bool
  art_zorro : Bool
  blur : Bool
  cartoonify : Bool
deriving DecidableEq, Repr

/-- Modelled from the spec: the `resize` group of `TransformBodyModel`;
an enable flag, crop/fill sub-flags and optional integer parameters, per
spec §4.3 group 3. -/
structure ResizeModel where
  use_filter : Bool
  crop : Bool
  fill : Bool
  height : Option Nat
  width : Option Nat
deriving DecidableEq, Repr

/-- Modelled from the spec: the `text` group of `TransformBodyModel`;
an enable flag, a font size and the overlay text, per spec §4.3 group 4. -/
structure TextModel where
  use_filter : Bool
  font_size : Option Nat
  text : String
deriving DecidableEq, Repr

/-- Modelled from the spec: the `rotate` group of `TransformBodyModel`;
an enable flag, a width and a rotation degree, per spec §4.3 group 5. -/
structure RotateModel where
  use_filter : Bool
  width : Option Nat
  degree : Option Nat
deriving DecidableEq, Repr

/-- Modelled from the spec: `TransformBodyModel` from
src/tramsform_schemas.py — the five independent filter groups. -/
structure TransformBodyModel where
  circle : CircleModel
  effect : EffectModel
  resize : ResizeModel
  text : TextModel
  rotate : RotateModel
deriving DecidableEq, Repr

/-- Python truthiness of an optional integer field: `None` and `0` are
falsy. -/
def truthy : Option Nat → Bool
  | none => false
  | some n => n != 0

/-- Python f-string rendering of an optional integer field: `None` prints
as "None". -/
def pyStr : Option Nat → String
  | none => "None"
  | some n => toString n

/-- One cloudinary transformation dictionary, one constructor per dict
shape appearing in src/repository/transform_foto.py. -/
inductive TransOp where
  | gravityCrop (gravity : String) (height : String) (width : String) (crop : String)
  | radius (r : String)
  | effect (e : String)
  | overlayText (color : String) (font_family : String) (font_size : String)
      (font_weight : String) (text : String)
  | layerApply (flags : String) (gravity : String) (y : Nat)
  | widthCrop (width : String) (crop : String)
  | angle (a : String)
deriving DecidableEq, Repr

/-- The circle-crop block of `transform_metod` (transform_foto.py lines
32-35): gated on the enable flag and truthiness of height and width. -/
def circle_group (c : CircleModel) : List TransOp :=
  if c.use_filter && truthy c.height && truthy c.width then
    [.gravityCrop "face" (pyStr c.height) (pyStr c.width) "thumb", .radius "max"]
  else []

/-- The effect block of `transform_metod` (lines 37-48): the four
sub-flags are checked in source order art_audrey, art_zorro, blur,
cartoonify, each overwriting `effect`; one operation is appended when the
resulting name is non-empty. -/
def effect_group (e : EffectModel) : List TransOp :=
  if e.use_filter then
    let effect := ""
    let effect := if e.art_audrey then "art:audrey" else effect
    let effect := if e.art_zorro then "art:zorro" else effect
    let effect := if e.blur then "blur:300" else effect
    let effect := if e.cartoonify then "cartoonify" else effect
    if effect != "" then [.effect effect] else []
  else []

/-- The resize block of `transform_metod` (lines 50-58).  The source gate
is `body.resize.use_filter and body.resize.height and body.resize.height`
— height is tested twice and width not at all; `crop` is overwritten by
`fill` when both sub-flags are set. -/
def resize_group (r : ResizeModel) : List TransOp :=
  if r.use_filter && truthy r.height && truthy r.height then
    let crop := ""
    let crop := if r.crop then "crop" else crop
    let crop := if r.fill then "fill" else crop
    if crop != "" then
      [.gravityCrop "auto" (pyStr r.height) (pyStr r.width) crop]
    else []
  else []

/-- The text-overlay block of `transform_metod` (lines 60-62). -/
def text_group (t : TextModel) : List TransOp :=
  if t.use_filter && truthy t.font_size && (t.text != "") then
    [.overlayText "#FFFF00" "Times" (pyStr t.font_size) "bold" t.text,
     .layerApply "layer_apply" "south" 20]
  else []

/-- The rotate block of `transform_metod` (lines 64-66): scale to width,
unconditional vertical flip, rotate by degree. -/
def rotate_group (r : RotateModel) : List TransOp :=
  if r.use_filter && truthy r.width && truthy r.degree then
    [.widthCrop (pyStr r.width) "scale", .angle "vflip", .angle (pyStr r.degree)]
  else []

/-- The full `transformation` list built by `transform_metod` (lines
30-66): each block appends its operations to the shared list in source
order. -/
def build_transformation (body : TransformBodyModel) : List TransOp :=
  circle_group body.circle ++ effect_group body.effect ++ resize_group body.resize
    ++ text_group body.text ++ rotate_group body.rotate

/-- Embedding of `transform_metod` from src/repository/transform_foto.py.  `buildUrl`
stands for the external `cloudinary.CloudinaryImage(public_id).build_url`
call.  Returns the (possibly updated) photo, the resulting session, and
whether the external image service was called. -/
def transform_metod (buildUrl : String → List TransOp → String)
    (foto_id : Nat) (body : TransformBodyModel) (user : User) (db : DB) :
    Option Foto × DB × Bool :=
  match db.fotos.find? (fun f => f.user_id == user.id && f.id == foto_id) with
  | none => (none, db, false)
  | some foto =>
    let transformation := build_transformation body
    if transformation.isEmpty then
      (some foto, db, false)
    else
      let url := buildUrl foto.public_id transformation
      let foto1 := { foto with transform_url := url }
      (some foto1, { db with fotos := db.fotos.map (fun f => if f.id == foto.id then foto1 else f) }, true)

/-- Embedding of `show_qr` from src/repository/transform_foto.py: looks the photo up by
owner and id; when found and its transform URL is non-empty, returns the
base64-encoded QR PNG of that URL (`qrEncode` stands for the external
pyqrcode + base64 pipeline); otherwise falls through returning nothing. -/
def show_qr (qrEncode : String → String) (foto_id : Nat) (user : User) (db : DB) :
    Option String :=
  match db.fotos.find? (fun f => f.user_id == user.id && f.id == foto_id) with
  | none => none
  | some foto =>
    if foto.transform_url != "" then some (qrEncode foto.transform_url)
    else none

/-- Autoincrement primary key for the `tags` table. -/
def fresh_tag_id (db : DB) : Nat :=
  (db.tags.map Tag.id).foldr max 0 + 1

/-- The loop body of `get_tags` in src/repository/fotos.py (lines
229-239), which is also the body of `create_tag` in
src/repository/tags.py: query for a tag with this title (globally, not
filtered by owner); when none exists, insert one owned by the requesting
user. -/
def resolve_tag (tag_title : String) (user : User) (db : DB) : Tag × DB :=
  match db.tags.find? (fun t => t.title == tag_title) with
  | some tag => (tag, db)
  | none =>
    let tag : Tag := ⟨fresh_tag_id db, tag_title, user.id⟩
    (tag, { db with tags := db.tags ++ [tag] })

/-- Embedding of `get_tags` from src/repository/fotos.py: resolve each title in order,
threading the session, and collect the resulting Tag rows. -/
def get_tags (tag_titles : List String) (user : User) (db : DB) : List Tag × DB :=
  match tag_titles with
  | [] => ([], db)
  | t :: rest =>
    let (tag, db1) := resolve_tag t user db
    let (tags, db2) := get_tags rest user db1
    (tag :: tags, db2)

/-- Autoincrement primary key for the `fotos` table. -/
def fresh_foto_id (db : DB) : Nat :=
  (db.fotos.map Foto.id).foldr max 0 + 1

/-- Embedding of `create_foto` from src/repository/fotos.py (lines 17-92).
`photo_number` starts at 1 and is bumped to 2 exactly when the current
user owns a photo whose id is 1; `public_id` is `PhotoShake/` followed by
that number; the cloudinary upload is keyed by `public_id` and `buildUrl`
stands for the external `build_url(width=250, height=250, crop="fill")`
call on the same identifier, whose result becomes both `image_url` and
`transform_url` (`url2 = url`).  Tags are resolved by splitting the first
raw entry on commas, as in the source. -/
def create_foto (buildUrl : String → String) (title descr : String)
    (tags : List String) (db : DB) (current_user : User) : Foto × DB :=
  let photo_number : Nat :=
    if (db.fotos.find? (fun f => f.user_id == current_user.id && f.id == 1)).isSome
    then 1 + 1 else 1
  let public_id := "PhotoShake/" ++ toString photo_number
  let url := buildUrl public_id
  let url2 := url
  let db1 :=
    match tags with
    | [] => db
    | t :: _ => (get_tags (t.splitOn ",") current_user db).2
  let foto : Foto :=
    { id := fresh_foto_id db1
      image_url := url
      transform_url := url2
      title := title
      descr := descr
      done := true
      user_id := current_user.id
      public_id := public_id }
  (foto, { db1 with fotos := db1.fotos ++ [foto] })

/-! ## Rating engine theorems -/

/-- C1: cast-vote checks are evaluated in the fixed order self-vote,
duplicate-vote, not-found.  For every store state: if the rater owns the
photo the call fails with the 423 self-vote error (even when a prior vote
by that rater exists, since no assumption on `db.ratings` is made); and if
the rater owns no photo with that id but a Rating for the (photo, rater)
pair exists, the call fails with the 423 duplicate-vote error (even when
no photo with that id is in the store, since no assumption on `db.fotos`
beyond non-ownership is made). -/
theorem create_rate_checks_in_order (foto_id : Nat) (rate : Int) (db : DB) (user : User) :
    ((∃ f ∈ db.fotos, f.id = foto_id ∧ f.user_id = user.id) →
      create_rate foto_id rate db user = .error ⟨423, .OWN_FOTO⟩)
    ∧ ((∀ f ∈ db.fotos, ¬(f.id = foto_id ∧ f.user_id = user.id)) →
      (∃ r ∈ db.ratings, r.foto_id = foto_id ∧ r.user_id = user.id) →
      create_rate foto_id rate db user = .error ⟨423, .VOTE_TWICE⟩) := by
  constructor
  · intro h
    have hs : (db.fotos.find? (fun f => f.id == foto_id && f.user_id == user.id)).isSome := by
      rw [List.find?_isSome]
      obtain ⟨f, hf, h1, h2⟩ := h
      exact ⟨f, hf, by simp [h1, h2]⟩
    simp only [create_rate, hs, if_pos]
  · intro hno hex
    have hn : db.fotos.find? (fun f => f.id == foto_id && f.user_id == user.id) = none := by
      rw [List.find?_eq_none]
      intro f hf
      have := hno f hf
      simp only [Bool.and_eq_true, beq_iff_eq]
      intro hc
      exact this hc
    have hs : (db.ratings.find? (fun r => r.foto_id == foto_id && r.user_id == user.id)).isSome := by
      rw [List.find?_isSome]
      obtain ⟨r, hr, h1, h2⟩ := hex
      exact ⟨r, hr, by simp [h1, h2]⟩
    simp [create_rate, hn, hs]

/-- Witness for C1: user 7 rating photo 1 which they own (while a prior
vote of theirs exists) gets the self-vote error; user 7 rating photo 1
when the store holds their old vote but the photo is gone gets the
duplicate-vote error. -/
theorem create_rate_checks_in_order_witness :
    create_rate 1 5 ⟨[⟨1, "u", "t", "a", "b", true, 7, "p"⟩], [⟨1, 3, 1, 7⟩], []⟩ ⟨7, .user⟩
        = .error ⟨423, .OWN_FOTO⟩
    ∧ create_rate 1 5 ⟨[], [⟨1, 3, 1, 7⟩], []⟩ ⟨7, .user⟩ = .error ⟨423, .VOTE_TWICE⟩ :=
  ⟨(create_rate_checks_in_order 1 5 ⟨[⟨1, "u", "t", "a", "b", true, 7, "p"⟩], [⟨1, 3, 1, 7⟩], []⟩
      ⟨7, .user⟩).1 (by decide),
   (create_rate_checks_in_order 1 5 ⟨[], [⟨1, 3, 1, 7⟩], []⟩ ⟨7, .user⟩).2
      (by decide) (by decide)⟩

/-- C2: when no photo with the given id exists and no stale rating for the
(photo, rater) pair exists, the repository call falls through returning
nothing, and the route layer surfaces this as a 404 with the fixed
NOT_FOUND message. -/
theorem create_rate_missing_photo_404 (foto_id : Nat) (rate : Int) (db : DB) (user : User)
    (hnofoto : ∀ f ∈ db.fotos, f.id ≠ foto_id)
    (hnorate : ∀ r ∈ db.ratings, ¬(r.foto_id = foto_id ∧ r.user_id = user.id)) :
    create_rate foto_id rate db user = .ok (none, db)
    ∧ create_rate_route foto_id rate db user = .error ⟨404, .NOT_FOUND⟩ := by
  have h1 : db.fotos.find? (fun f => f.id == foto_id && f.user_id == user.id) = none := by
    rw [List.find?_eq_none]
    intro f hf
    simp only [Bool.and_eq_true, beq_iff_eq]
    intro hc
    exact hnofoto f hf hc.1
  have h2 : db.ratings.find? (fun r => r.foto_id == foto_id && r.user_id == user.id) = none := by
    rw [List.find?_eq_none]
    intro r hr
    simp only [Bool.and_eq_true, beq_iff_eq]
    exact hnorate r hr
  have h3 : db.fotos.find? (fun f => f.id == foto_id) = none := by
    rw [List.find?_eq_none]
    intro f hf
    simp only [beq_iff_eq]
    exact hnofoto f hf
  have h4 : create_rate foto_id rate db user = .ok (none, db) := by
    simp [create_rate, h1, h2, h3]
  exact ⟨h4, by simp [create_rate_route, h4]⟩

/-- Witness for C2: user 7 rating the absent photo 9 in a store holding an
unrelated photo and an unrelated rating gets nothing from the repository
and a 404 from the route. -/
theorem create_rate_missing_photo_404_witness :
    create_rate 3 9 ⟨[⟨1, "u", "t", "a", "b", true, 2, "p"⟩], [⟨1, 4, 1, 2⟩], []⟩ ⟨7, .user⟩
        = .ok (none, ⟨[⟨1, "u", "t", "a", "b", true, 2, "p"⟩], [⟨1, 4, 1, 2⟩], []⟩)
    ∧ create_rate_route 3 9 ⟨[⟨1, "u", "t", "a", "b", true, 2, "p"⟩], [⟨1, 4, 1, 2⟩], []⟩ ⟨7, .user⟩
        = .error ⟨404, .NOT_FOUND⟩ :=
  create_rate_missing_photo_404 3 9
    ⟨[⟨1, "u", "t", "a", "b", true, 2, "p"⟩], [⟨1, 4, 1, 2⟩], []⟩ ⟨7, .user⟩
    (by decide) (by decide)

/-- C3 (failing input): editing a vote whose rating id is absent from the
store with an actor of plain `user` role does not fail silently — the
permission condition dereferences the missing rating and an
AttributeError escapes, contradicting the claim that no error is raised
when the rating does not exist. -/
theorem edit_rate_missing_rating_raises :
    edit_rate 1 5 ⟨[], [], []⟩ ⟨7, .user⟩ = .error .AttributeError := rfl

/-! ## Transformation compiler theorems -/

/-- C4 (counterexample): with the resize group enabled, height 400 and
both `crop` and `fill` set, an auto-gravity resize operation with crop
mode "fill" IS emitted — the group is not skipped as the claim states;
and with width absent (but height present and `crop` set) the operation
is still emitted, with the absent width rendered as "None". -/
theorem resize_group_emits_on_crop_and_fill :
    resize_group ⟨true, true, true, some 400, some 400⟩
        = [.gravityCrop "auto" "400" "400" "fill"]
    ∧ resize_group ⟨true, true, false, some 400, none⟩
        = [.gravityCrop "auto" "400" "None" "crop"] :=
  ⟨rfl, rfl⟩

/-- C4 (amended): the resize group emits its single auto-gravity resize
operation if and only if its enable flag is set, height is present
(height is tested twice in the gate, width not at all), and at least one
of crop/fill is set; when both are set, `fill` wins. -/
theorem resize_group_amended (r : ResizeModel) :
    resize_group r =
      if r.use_filter && truthy r.height && (r.crop || r.fill) then
        [.gravityCrop "auto" (pyStr r.height) (pyStr r.width)
          (if r.fill then "fill" else "crop")]
      else [] := by
  rcases r with ⟨u, c, fl, h, w⟩
  cases u <;> cases c <;> cases fl <;>
    simp [resize_group, Bool.and_self]

/-- C5: whenever the rotate group is enabled with width and degree
present, it compiles to exactly three operations in the literal order
scale-to-width, vertical flip, rotate-by-degree (the flip unconditional);
and a request enabling only the rotate group compiles to exactly that
three-element list. -/
theorem rotate_group_three_ops (r : RotateModel)
    (h : r.use_filter = true ∧ truthy r.width = true ∧ truthy r.degree = true) :
    rotate_group r = [.widthCrop (pyStr r.width) "scale", .angle "vflip", .angle (pyStr r.degree)]
    ∧ (rotate_group r).length = 3
    ∧ ∀ body : TransformBodyModel, body.circle.use_filter = false →
        body.effect.use_filter = false → body.resize.use_filter = false →
        body.text.use_filter = false → body.rotate = r →
        build_transformation body =
          [.widthCrop (pyStr r.width) "scale", .angle "vflip", .angle (pyStr r.degree)] := by
  obtain ⟨h1, h2, h3⟩ := h
  have hr : rotate_group r =
      [.widthCrop (pyStr r.width) "scale", .angle "vflip", .angle (pyStr r.degree)] := by
    simp [rotate_group, h1, h2, h3]
  refine ⟨hr, by simp [hr], ?_⟩
  intro body hc he hrs ht hrot
  simp [build_transformation, circle_group, effect_group, resize_group, text_group,
    hc, he, hrs, ht, hrot, hr]

/-- Witness for C5: width 400, degree 45 compiles to scale-to-400,
vertical flip, rotate-45, in that order. -/
theorem rotate_group_three_ops_witness :
    rotate_group ⟨true, some 400, some 45⟩
        = [.widthCrop "400" "scale", .angle "vflip", .angle "45"]
    ∧ build_transformation
        ⟨⟨false, none, none⟩, ⟨false, false, false, false, false⟩,
         ⟨false, false, false, none, none⟩, ⟨false, none, ""⟩, ⟨true, some 400, some 45⟩⟩
        = [.widthCrop "400" "scale", .angle "vflip", .angle "45"] :=
  ⟨(rotate_group_three_ops ⟨true, some 400, some 45⟩ (by decide)).1,
   (rotate_group_three_ops ⟨true, some 400, some 45⟩ (by decide)).2.2
     ⟨⟨false, none, none⟩, ⟨false, false, false, false, false⟩,
      ⟨false, false, false, none, none⟩, ⟨false, none, ""⟩, ⟨true, some 400, some 45⟩⟩
     rfl rfl rfl rfl rfl⟩

/-- C6: the effect group compiles to exactly one effect operation when
enabled and at least one sub-flag is set, the resolved name following the
check order art_audrey, art_zorro, blur, cartoonify with the later-checked
flag winning (cartoonify over blur over art:zorro over art:audrey); with
no sub-flag set it contributes nothing even though enabled. -/
theorem effect_group_priority (e : EffectModel) :
    effect_group e =
      if e.use_filter && (e.art_audrey || e.art_zorro || e.blur || e.cartoonify) then
        [.effect (if e.cartoonify then "cartoonify" else if e.blur then "blur:300"
          else if e.art_zorro then "art:zorro" else "art:audrey")]
      else [] := by
  rcases e with ⟨u, a, z, b, c⟩
  cases u <;> cases a <;> cases z <;> cases b <;> cases c <;> rfl

/-- C7: for a photo owned by the requester, a request whose groups all
have their enable flag unset compiles to the empty operation list; when
the compiled list is empty the photo is returned unchanged, the store is
unchanged and the external image service is not called; when it is
non-empty, the URL returned by the external service overwrites the
photo's transform URL and the updated row is persisted. -/
theorem transform_metod_empty_vs_nonempty (buildUrl : String → List TransOp → String)
    (foto_id : Nat) (body : TransformBodyModel) (user : User) (db : DB) (foto : Foto)
    (hfind : db.fotos.find? (fun f => f.user_id == user.id && f.id == foto_id) = some foto) :
    ((body.circle.use_filter = false ∧ body.effect.use_filter = false ∧
        body.resize.use_filter = false ∧ body.text.use_filter = false ∧
        body.rotate.use_filter = false) → build_transformation body = [])
    ∧ (build_transformation body = [] →
        transform_metod buildUrl foto_id body user db = (some foto, db, false))
    ∧ (build_transformation body ≠ [] →
        transform_metod buildUrl foto_id body user db =
          (some { foto with transform_url := buildUrl foto.public_id (build_transformation body) },
           { db with fotos := db.fotos.map (fun f => if f.id == foto.id then
               { foto with transform_url := buildUrl foto.public_id (build_transformation body) }
             else f) },
           true)) := by
  refine ⟨?_, ?_, ?_⟩
  · rintro ⟨h1, h2, h3, h4, h5⟩
    simp [build_transformation, circle_group, effect_group, resize_group, text_group,
      rotate_group, h1, h2, h3, h4, h5]
  · intro hempty
    simp [transform_metod, hfind, hempty]
  · intro hne
    rw [transform_metod, hfind]
    simp only [List.isEmpty_eq_true, hne, if_false]

/-- Witness for C7: user 2 owns photo 1; the all-flags-false request
leaves photo and store untouched with no external call, while a
rotate-only request rewrites the transform URL with the external
service's answer. -/
theorem transform_metod_empty_vs_nonempty_witness :
    transform_metod (fun p _ => "https://cdn/" ++ p) 1
        ⟨⟨false, none, none⟩, ⟨false, false, false, false, false⟩,
         ⟨false, false, false, none, none⟩, ⟨false, none, ""⟩, ⟨false, none, none⟩⟩
        ⟨2, .user⟩ ⟨[⟨1, "i", "t", "a", "b", true, 2, "pub"⟩], [], []⟩
      = (some ⟨1, "i", "t", "a", "b", true, 2, "pub"⟩,
         ⟨[⟨1, "i", "t", "a", "b", true, 2, "pub"⟩], [], []⟩, false)
    ∧ transform_metod (fun p _ => "https://cdn/" ++ p) 1
        ⟨⟨false, none, none⟩, ⟨false, false, false, false, false⟩,
         ⟨false, false, false, none, none⟩, ⟨false, none, ""⟩, ⟨true, some 400, some 45⟩⟩
        ⟨2, .user⟩ ⟨[⟨1, "i", "t", "a", "b", true, 2, "pub"⟩], [], []⟩
      = (some ⟨1, "i", "https://cdn/pub", "a", "b", true, 2, "pub"⟩,
         ⟨[⟨1, "i", "https://cdn/pub", "a", "b", true, 2, "pub"⟩], [], []⟩, true) := by
  constructor
  · have h := transform_metod_empty_vs_nonempty (fun p _ => "https://cdn/" ++ p) 1
      ⟨⟨false, none, none⟩, ⟨false, false, false, false, false⟩,
       ⟨false, false, false, none, none⟩, ⟨false, none, ""⟩, ⟨false, none, none⟩⟩
      ⟨2, .user⟩ ⟨[⟨1, "i", "t", "a", "b", true, 2, "pub"⟩], [], []⟩
      ⟨1, "i", "t", "a", "b", true, 2, "pub"⟩ rfl
    exact h.2.1 (h.1 ⟨rfl, rfl, rfl, rfl, rfl⟩)
  · have h := transform_metod_empty_vs_nonempty (fun p _ => "https://cdn/" ++ p) 1
      ⟨⟨false, none, none⟩, ⟨false, false, false, false, false⟩,
       ⟨false, false, false, none, none⟩, ⟨false, none, ""⟩, ⟨true, some 400, some 45⟩⟩
      ⟨2, .user⟩ ⟨[⟨1, "i", "t", "a", "b", true, 2, "pub"⟩], [], []⟩
      ⟨1, "i", "t", "a", "b", true, 2, "pub"⟩ rfl
    have h2 := h.2.2 (by decide)
    simpa using h2

/-! ## Tag resolver theorems -/

/-- Appending past a failed search: when the first segment has no match,
searching the concatenation searches the second segment. -/
theorem find?_append_of_none {α} (p : α → Bool) (l1 l2 : List α)
    (h : l1.find? p = none) : (l1 ++ l2).find? p = l2.find? p := by
  rw [List.find?_append, h, Option.none_or]

/-- C8: resolving the same title twice, by any two users, yields the same
Tag row, and the second resolution leaves the store unchanged (no second
Tag with that title is ever created: the lookup is keyed by title alone,
not by owner); when the title is new, the tag created by the first
resolution records the first requesting user as its owner. -/
theorem get_tags_resolve_twice (t : String) (u1 u2 : User) (db : DB) :
    (get_tags [t] u2 (get_tags [t] u1 db).2).1 = (get_tags [t] u1 db).1
    ∧ (get_tags [t] u2 (get_tags [t] u1 db).2).2 = (get_tags [t] u1 db).2
    ∧ (db.tags.find? (fun x => x.title == t) = none →
        (get_tags [t] u1 db).1 = [⟨fresh_tag_id db, t, u1.id⟩]) := by
  cases h : db.tags.find? (fun x => x.title == t) with
  | some tag =>
      simp [get_tags, resolve_tag, h]
  | none =>
      have hfind : ((db.tags ++ [(⟨fresh_tag_id db, t, u1.id⟩ : Tag)]).find?
          (fun x => x.title == t)) = some ⟨fresh_tag_id db, t, u1.id⟩ := by
        rw [find?_append_of_none _ _ _ h]
        simp [List.find?]
      simp [get_tags, resolve_tag, h, hfind]

/-- Witness for C8: resolving "cat" by user 1 and then by user 2 on an
empty store returns the same single tag both times, owned by user 1, and
the second call adds nothing. -/
theorem get_tags_resolve_twice_witness :
    (get_tags ["cat"] ⟨2, .user⟩ (get_tags ["cat"] ⟨1, .user⟩ ⟨[], [], []⟩).2).1
        = (get_tags ["cat"] ⟨1, .user⟩ ⟨[], [], []⟩).1
    ∧ (get_tags ["cat"] ⟨2, .user⟩ (get_tags ["cat"] ⟨1, .user⟩ ⟨[], [], []⟩).2).2
        = (get_tags ["cat"] ⟨1, .user⟩ ⟨[], [], []⟩).2
    ∧ (get_tags ["cat"] ⟨1, .user⟩ ⟨[], [], []⟩).1 = [⟨1, "cat", 1⟩] :=
  have h := get_tags_resolve_twice "cat" ⟨1, .user⟩ ⟨2, .user⟩ ⟨[], [], []⟩
  ⟨h.1, h.2.1, h.2.2 rfl⟩

/-! ## Photo creation theorems -/

/-- A fixed stand-in for the external cloudinary
`build_url(width=250, height=250, crop="fill")` call keyed by the public
identifier. -/
def cdnUrl (public_id : String) : String :=
  "https://res.cloudinary.com/demo/image/upload/c_fill,h_250,w_250/" ++ public_id

/-- The same owner creating three photos in a row, starting from an empty
store. -/
def createdOnce : Foto × DB := create_foto cdnUrl "first" "d" [] ⟨[], [], []⟩ ⟨1, .user⟩

def createdTwice : Foto × DB := create_foto cdnUrl "second" "d" [] createdOnce.2 ⟨1, .user⟩

def createdThrice : Foto × DB := create_foto cdnUrl "third" "d" [] createdTwice.2 ⟨1, .user⟩

/-- C9 (failing input): the same owner's second and third photos are
distinct rows yet receive the same public identifier "PhotoShake/2" —
`photo_number` depends only on whether the owner has a photo whose id is
1, so it can only ever be 1 or 2 and the owner-scoped identifiers are not
pairwise distinct. -/
theorem create_foto_public_id_collision :
    createdTwice.1.public_id = createdThrice.1.public_id
    ∧ createdTwice.1.id ≠ createdThrice.1.id
    ∧ createdTwice.1.public_id = "PhotoShake/2" := by decide

/-- Every id present in a list bounds the running foldr maximum. -/
theorem mem_le_foldr_max (l : List Nat) (a : Nat) (h : a ∈ l) : a ≤ l.foldr max 0 := by
  induction l with
  | nil => cases h
  | cons x xs ih =>
      rcases List.mem_cons.mp h with h | h
      · subst h; exact le_max_left _ _
      · exact le_trans (ih h) (le_max_right _ _)

/-- Inserting a row with a fresh id (one past the running maximum) at the
end of the `fotos` table: the owner's QR lookup by that id finds exactly
the inserted row, and a non-empty transform URL takes the encoding
branch. -/
theorem show_qr_append_fresh (qrEncode : String → String) (user : User)
    (fotos : List Foto) (ratings : List Rating) (tagRows : List Tag) (foto : Foto)
    (hid : foto.id = (fotos.map Foto.id).foldr max 0 + 1)
    (howner : foto.user_id = user.id)
    (hurl : foto.transform_url ≠ "") :
    show_qr qrEncode foto.id user ⟨fotos ++ [foto], ratings, tagRows⟩
      = some (qrEncode foto.transform_url) := by
  have hnone : fotos.find? (fun f => f.user_id == user.id && f.id == foto.id) = none := by
    rw [List.find?_eq_none]
    intro f hf
    simp only [Bool.and_eq_true, beq_iff_eq, not_and]
    intro _ h2
    have hle : f.id ≤ (fotos.map Foto.id).foldr max 0 :=
      mem_le_foldr_max _ _ (List.mem_map_of_mem _ hf)
    omega
  simp only [show_qr]
  rw [find?_append_of_none _ _ _ hnone]
  simp [List.find?, howner, hurl]

/-- C10: a photo created by `create_foto` has its transform URL equal to
its image URL and (whenever the external URL builder returns a non-empty
URL) non-empty; consequently, QR rendering by the owner on the resulting
store finds the photo, takes the non-empty-URL branch, and returns the
encoded string, which is non-empty whenever the encoder maps non-empty
input to non-empty output. -/
theorem create_foto_transform_url_qr (buildUrl : String → String) (qrEncode : String → String)
    (title descr : String) (tags : List String) (db : DB) (user : User)
    (hurl : ∀ s, buildUrl s ≠ "")
    (hqr : ∀ s, s ≠ "" → qrEncode s ≠ "") :
    (create_foto buildUrl title descr tags db user).1.transform_url
        = (create_foto buildUrl title descr tags db user).1.image_url
    ∧ (create_foto buildUrl title descr tags db user).1.transform_url ≠ ""
    ∧ show_qr qrEncode (create_foto buildUrl title descr tags db user).1.id user
        (create_foto buildUrl title descr tags db user).2
      = some (qrEncode (create_foto buildUrl title descr tags db user).1.transform_url)
    ∧ qrEncode (create_foto buildUrl title descr tags db user).1.transform_url ≠ "" := by
  have hurl1 : (create_foto buildUrl title descr tags db user).1.transform_url ≠ "" := by
    cases tags <;> exact hurl _
  refine ⟨by cases tags <;> rfl, hurl1, ?_, hqr _ hurl1⟩
  cases tags with
  | nil => exact show_qr_append_fresh qrEncode user _ _ _ _ rfl rfl hurl1
  | cons t rest => exact show_qr_append_fresh qrEncode user _ _ _ _ rfl rfl hurl1

/-- Witness for C10: with a constant non-empty URL builder and QR
encoder, the photo created in an empty store by user 1 carries that URL
as its transform URL and QR rendering by user 1 on the resulting store
returns the encoded string. -/
theorem create_foto_transform_url_qr_witness :
    (create_foto (fun _ => "https://cdn/x") "t" "d" [] ⟨[], [], []⟩ ⟨1, .user⟩).1.transform_url
        = "https://cdn/x"
    ∧ show_qr (fun _ => "QR")
        (create_foto (fun _ => "https://cdn/x") "t" "d" [] ⟨[], [], []⟩ ⟨1, .user⟩).1.id
        ⟨1, .user⟩
        (create_foto (fun _ => "https://cdn/x") "t" "d" [] ⟨[], [], []⟩ ⟨1, .user⟩).2
      = some "QR" :=
  have h := create_foto_transform_url_qr (fun _ => "https://cdn/x") (fun _ => "QR")
    "t" "d" [] ⟨[], [], []⟩ ⟨1, .user⟩
    (fun _ => show ("https://cdn/x" : String) ≠ "" by decide)
    (fun _ _ => show ("QR" : String) ≠ "" by decide)
  ⟨rfl, h.2.2.1⟩

end PhotoShake
